import Mathlib

/-!
Verification of the Valve Configurator compatibility and recommendation engine.

The definitions below are a shallow embedding of the rule logic of the
repository script. The authoritative current script is
src/unnamed/part_000 (the form page) together with src/unnamed/part_001
(the submit handler with the function mapping, the body material switch and
the seal material switch, lines 256-388). The pressure/temperature envelope
chain exists only in the snapshot
src/.history/static/script_20250728154145.js (lines 367-412) and is
embedded separately as envelopeRule / applyEnvelope.

Numbers are modelled as rationals (the script works on parseFloat results),
strings as Lean strings; the free text fields fluidType and nominalDiameter
are taken already lower cased, as the handler lower cases them on entry.
The JS Set of recommendation strings is modelled as an insertion ordered
duplicate free list of RecItem values; RecItem.text gives the exact source
string of each item, and distinct constructors carry distinct strings, so
equality of items coincides with equality of the underlying strings.
-/

/-- Main function select values (form field mainFunction); the empty
selection is unset. -/
inductive MainFunction
  | on_off
  | regulation
  | on_off_regulation
  | unset
deriving DecidableEq

/-- Body and bonnet material select values (form field bodyBonnetMaterial);
the empty selection is unset. -/
inductive BodyMaterial
  | cast_iron
  | ductile_iron
  | carbon_steel
  | stainless_steel
  | stainless_steel_310
  | brass
  | bronze
  | duplex_super_duplex
  | plastic
  | unset
deriving DecidableEq

/-- Seal surface material select values (form field sealSurfaceMaterial);
the empty selection is unset. -/
inductive SealMaterial
  | elastomer
  | ptfe
  | rubber_seal
  | copper_alloys
  | stainless_steel_seal
  | stellite
  | unset
deriving DecidableEq

/-- Every string the handler can add to the recommendations set, one
constructor per distinct source string (see RecItem.text). -/
inductive RecItem
  | gateValves
  | butterflyOnOff
  | ballValves
  | knifeGate
  | globeReg
  | weirDiaphragm
  | needleValves
  | butterflyOor
  | globeOor
  | knifeGateV
  | castIronSteamWarn
  | brassSizeWarn
  | brassChemWarn
  | bronzeChemWarn
  | duplexSeaWaterNote
  | noMatchMaterialMsg
  | elastomerWarn
  | ptfeNuclearWarn
  | stelliteNote
  | noMatchSealMsg
  | envWarn1
  | envWarn2
  | envWarn3
  | envWarn4
  | envWarn5
  | envWarn6
deriving DecidableEq

/-- Exact source string of each recommendation item (families from
part_001 lines 264-278, warnings from the material and seal branches, and
the six envelope warnings from the 2025-07-28 snapshot). -/
def RecItem.text : RecItem → String
  | RecItem.gateValves => "Gate Valves (Vannes passage direct)"
  | RecItem.butterflyOnOff => "Butterfly Valves (Vannes à papillon)"
  | RecItem.ballValves => "Ball Valves (Robinets boisseau sphérique)"
  | RecItem.knifeGate => "Knife Gate Valves (Robinets vanne à guillotine)"
  | RecItem.globeReg => "Globe Valves (Robinets à soupape)"
  | RecItem.weirDiaphragm => "Weir Type Diaphragm Valves (Robinet à membrane)"
  | RecItem.needleValves => "Needle Valves (Robinet à pointeau)"
  | RecItem.butterflyOor => "Butterfly Valves (Robinet vanne à papillon)"
  | RecItem.globeOor => "Globe Valves (Robinet à soupape)"
  | RecItem.knifeGateV => "Knife Gate Valves with \"V\" Deflector (Robinets vanne à guillotine avec \"V\" de régulation)"
  | RecItem.castIronSteamWarn => "Warning: Cast Iron has limited use for steam above 10 bar / 180°C. Consider other materials for steam applications."
  | RecItem.brassSizeWarn => "Warning: Brass is generally limited to DN100. Consider other materials for larger diameters."
  | RecItem.brassChemWarn => "Warning: Brass is not suitable for corrosive fluids, acids, or ammonia."
  | RecItem.bronzeChemWarn => "Warning: Bronze is not suitable for corrosive fluids, acids, or ammonia."
  | RecItem.duplexSeaWaterNote => "Duplex/Super Duplex is highly recommended for sea water applications."
  | RecItem.noMatchMaterialMsg => "No valves found matching the selected body/bonnet material and operating conditions. Please review your material, temperature, and pressure selections."
  | RecItem.elastomerWarn => "Warning: Elastomer seals have low resistance to erosion and corrosion, and are sensitive to abrasion."
  | RecItem.ptfeNuclearWarn => "Warning: PTFE is prohibited in nuclear power plants."
  | RecItem.stelliteNote => "Stellite is recommended for severe conditions and abrasive fluids."
  | RecItem.noMatchSealMsg => "No valves found matching the selected seal surface material and operating conditions."
  | RecItem.envWarn1 => "Warning: High temperature with very low pressure may indicate flashing fluids or vacuum service. Specialized valves (e.g., globe valves for flashing, or specific materials/designs for vacuum) may be required. Consult a specialist."
  | RecItem.envWarn2 => "Warning: Very low temperature combined with high pressure might require cryogenic or high-pressure gas service valves. Ensure material selection (e.g., stainless steel, special alloys) is appropriate for these extreme conditions."
  | RecItem.envWarn3 => "Warning: Extremely high pressure and high temperature conditions indicate a super-critical fluid or very specialized application. Valve design and material selection are critical and require expert consultation."
  | RecItem.envWarn4 => "Warning: Very low pressure combined with very low temperature suggests cryogenic vacuum service. This requires highly specialized valve designs and materials to prevent leakage and material embrittlement."
  | RecItem.envWarn5 => "Warning: Very high pressure at low temperatures (below 0°C) indicates high-pressure cryogenic gas service. This requires robust materials and specialized sealing to prevent embrittlement and leakage."
  | RecItem.envWarn6 => "Warning: Very low pressure at extremely high temperatures (above 400°C) suggests high-temperature vacuum or highly expanded gas. This requires specialized valve designs for sealing and material resistance to creep/oxidation."

/-- Boolean test that the list pat is an initial segment of the list s. -/
def listStartsWith : List Char → List Char → Bool
  | [], _ => true
  | _ :: _, [] => false
  | a :: xs, b :: ys => a == b && listStartsWith xs ys

/-- Boolean test that the list pat occurs contiguously inside the list s. -/
def listContainsSeq (pat : List Char) : List Char → Bool
  | [] => listStartsWith pat []
  | b :: t => listStartsWith pat (b :: t) || listContainsSeq pat t

/-- Model of the JS method s.includes(pat): substring containment. -/
def strIncludes (s pat : String) : Bool :=
  listContainsSeq pat.toList s.toList

/-- Model of the JS replace(/[^\d.]/g, imposed empty): keep only decimal
digits and dots. -/
def stripNonNumeric (s : String) : List Char :=
  s.toList.filter (fun c => c.isDigit || c == '.')

/-- Numeric value of a digit list, most significant digit first. -/
def digitsToNat (ds : List Char) : Nat :=
  ds.foldl (fun a c => 10 * a + (c.toNat - 48)) 0

/-- Model of JS parseFloat restricted to strings of digits and dots (the
only shape the script ever feeds it, after stripNonNumeric): the longest
numeric prefix is read, and none models NaN (no digit in the prefix). -/
def parseDigitsDots (cs : List Char) : Option ℚ :=
  let intPart := cs.takeWhile Char.isDigit
  let rest := cs.drop intPart.length
  if rest.head? = some '.' then
    let fracPart := (rest.drop 1).takeWhile Char.isDigit
    if intPart.isEmpty && fracPart.isEmpty then none
    else some ((digitsToNat intPart : ℚ) + (digitsToNat fracPart : ℚ) / (10 : ℚ) ^ fracPart.length)
  else if intPart.isEmpty then none else some (digitsToNat intPart : ℚ)

/-- Model of parseFloat(d.replace(/[^\d.]/g, imposed empty)) from the brass
branch, part_001 line 310. -/
def jsParseFloat (s : String) : Option ℚ :=
  parseDigitsDots (stripNonNumeric s)

/-- Model of the JS comparison parsed > bound where parsed may be NaN:
any comparison with NaN is false. -/
def jsGt (o : Option ℚ) (bound : ℚ) : Bool :=
  match o with
  | none => false
  | some v => decide (bound < v)

/-- Condition of the brass size override, part_001 line 310:
nominalDiameter.includes(dn100) or (nominalDiameter nonempty and its
stripped numeric value parses above 100). -/
def brassSizeHit (d : String) : Bool :=
  strIncludes d "dn100" || (decide (d ≠ "") && jsGt (jsParseFloat d) 100)

/-- Model of Set.add on the recommendations set: append unless already
present (JS Set preserves insertion order and drops duplicates). -/
def addRec (l : List RecItem) (x : RecItem) : List RecItem :=
  if x ∈ l then l else l ++ [x]

/-- Sequence of Set.add calls, in order. -/
def addAll (l : List RecItem) (ws : List RecItem) : List RecItem :=
  ws.foldl addRec l

/-- Family recommendations added for each main function, part_001 lines
264-281; the unselected case adds nothing (and the handler clears the
suitable flag there). -/
def functionRecs : MainFunction → List RecItem
  | MainFunction.on_off =>
      [RecItem.gateValves, RecItem.butterflyOnOff, RecItem.ballValves, RecItem.knifeGate]
  | MainFunction.regulation =>
      [RecItem.globeReg, RecItem.weirDiaphragm, RecItem.needleValves]
  | MainFunction.on_off_regulation =>
      [RecItem.weirDiaphragm, RecItem.butterflyOor, RecItem.globeOor, RecItem.knifeGateV]
  | MainFunction.unset => []

/-- Translation of the body and bonnet material switch, part_001 lines
284-345: the returned Bool is the final value of the mutable flag
materialViable (initialised false, possibly cleared by overrides, set by
the chart range check), the list holds the warnings added to the
recommendations set, in insertion order. -/
def bodyMaterialCheck (m : BodyMaterial) (temperature pressure : ℚ)
    (fluidType nominalDiameter : String) : Bool × List RecItem :=
  match m with
  | BodyMaterial.cast_iron =>
      if strIncludes fluidType "steam" = true ∧ (180 < temperature ∨ 10 < pressure) then
        (false, [RecItem.castIronSteamWarn])
      else if temperature ≤ 184 ∧ pressure ≤ 16 then (true, [])
      else (false, [])
  | BodyMaterial.ductile_iron =>
      ((if temperature ≤ 350 ∧ pressure ≤ 25 then true else false), [])
  | BodyMaterial.carbon_steel =>
      ((if -20 ≤ temperature ∧ temperature ≤ 425 ∧ pressure ≤ 400 then true else false), [])
  | BodyMaterial.stainless_steel =>
      ((if -200 ≤ temperature ∧ temperature ≤ 420 ∧ pressure ≤ 400 then true else false), [])
  | BodyMaterial.stainless_steel_310 =>
      ((if -200 ≤ temperature ∧ temperature ≤ 550 ∧ pressure ≤ 400 then true else false), [])
  | BodyMaterial.brass =>
      -- lines 308-320: size override, chemical override, then chart range;
      -- v0 .. v3 are the successive values of the materialViable flag
      let sizeHit := brassSizeHit nominalDiameter
      let chemHit := strIncludes fluidType "corrosive" || strIncludes fluidType "acid"
        || strIncludes fluidType "ammonia"
      let v0 : Bool := false
      let v1 := if sizeHit = true then false else v0
      let v2 := if chemHit = true then false else v1
      let v3 := if temperature ≤ 100 ∧ pressure ≤ 64 then true else v2
      (v3, (if sizeHit = true then [RecItem.brassSizeWarn] else [])
          ++ (if chemHit = true then [RecItem.brassChemWarn] else []))
  | BodyMaterial.bronze =>
      -- lines 321-328: chemical override, then chart range
      let chemHit := strIncludes fluidType "corrosive" || strIncludes fluidType "acid"
        || strIncludes fluidType "ammonia"
      let v0 : Bool := false
      let v1 := if chemHit = true then false else v0
      let v2 := if temperature ≤ 100 ∧ pressure ≤ 64 then true else v1
      (v2, if chemHit = true then [RecItem.bronzeChemWarn] else [])
  | BodyMaterial.duplex_super_duplex =>
      -- lines 329-337: viable in both branches; sea water adds the note
      if strIncludes fluidType "sea water" = true then (true, [RecItem.duplexSeaWaterNote])
      else (true, [])
  | BodyMaterial.plastic =>
      ((if temperature ≤ 60 ∧ pressure ≤ 16 then true else false), [])
  | BodyMaterial.unset =>
      -- lines 341-344: the default case assumes the material is viable
      (true, [])

/-- Translation of the seal surface material switch, part_001 lines
354-383 (entered only when a seal is selected): final value of the
sealViable flag plus the warnings added. -/
def sealCheck (s : SealMaterial) (temperature pressure : ℚ)
    (fluidType : String) : Bool × List RecItem :=
  match s with
  | SealMaterial.elastomer =>
      let bad := strIncludes fluidType "abrasive" || strIncludes fluidType "corrosive"
      ((if temperature ≤ 120 ∧ bad = false then true else false),
        if bad = true then [RecItem.elastomerWarn] else [])
  | SealMaterial.ptfe =>
      ((if temperature ≤ 200 ∧ strIncludes fluidType "nuclear" = false then true else false),
        if strIncludes fluidType "nuclear" = true then [RecItem.ptfeNuclearWarn] else [])
  | SealMaterial.rubber_seal =>
      ((if temperature ≤ 130 then true else false), [])
  | SealMaterial.copper_alloys =>
      ((if temperature ≤ 200 ∧ pressure ≤ 16 then true else false), [])
  | SealMaterial.stainless_steel_seal =>
      ((if 420 ≤ temperature then true else false), [])
  | SealMaterial.stellite =>
      (true, [RecItem.stelliteNote])
  | SealMaterial.unset =>
      -- unreachable from evalRecord; a switch with no matching case would
      -- leave the sealViable flag at its initial false
      (false, [])

/-- Parameter record consumed by one submit evaluation (fluidType and
nominalDiameter already lower cased, numbers already parsed, as in
part_001 lines 239-246). -/
structure Record where
  mainFunction : MainFunction
  bodyBonnetMaterial : BodyMaterial
  temperature : ℚ
  pressure : ℚ
  sealSurfaceMaterial : SealMaterial
  nominalDiameter : String
  fluidType : String

/-- Result of one submit evaluation: the recommendations set (insertion
ordered, duplicate free) and the suitable flag. -/
structure EvalResult where
  recommendations : List RecItem
  suitable : Bool
deriving DecidableEq

/-- Translation of the rule portion of the part_001 submit handler, lines
256-388: function mapping, body material gate, seal gate, each feeding the
shared recommendations set and the suitable flag in source order. -/
def evalRecord (r : Record) : EvalResult :=
  let recs0 : List RecItem := []
  let suitable0 : Bool := true
  -- lines 264-281: function to family mapping; else branch clears suitable
  let recs1 := addAll recs0 (functionRecs r.mainFunction)
  let suitable1 := if r.mainFunction = MainFunction.unset then false else suitable0
  -- lines 284-345: body material switch
  let m := bodyMaterialCheck r.bodyBonnetMaterial r.temperature r.pressure
    r.fluidType r.nominalDiameter
  let recs2 := addAll recs1 m.2
  -- lines 347-350: not viable clears suitable and adds the no match message
  let suitable2 := if m.1 = true then suitable1 else false
  let recs3 := if m.1 = true then recs2 else addRec recs2 RecItem.noMatchMaterialMsg
  -- lines 353-388: seal switch, run only when a seal was selected
  if r.sealSurfaceMaterial = SealMaterial.unset then
    { recommendations := recs3, suitable := suitable2 }
  else
    let sc := sealCheck r.sealSurfaceMaterial r.temperature r.pressure r.fluidType
    let recs4 := addAll recs3 sc.2
    let suitable3 := if sc.1 = true then suitable2 else false
    let recs5 := if sc.1 = true then recs4 else addRec recs4 RecItem.noMatchSealMsg
    { recommendations := recs5, suitable := suitable3 }

/-- Threshold constants of the envelope chain, snapshot lines 373-380. -/
def HIGH_TEMP_THRESHOLD : ℚ := 100

/-- Low pressure threshold, in bar. -/
def LOW_PRESSURE_THRESHOLD : ℚ := 1

/-- Very low temperature threshold, in degrees C. -/
def VERY_LOW_TEMP_THRESHOLD : ℚ := 0

/-- High pressure threshold, in bar. -/
def HIGH_PRESSURE_THRESHOLD : ℚ := 50

/-- Extreme high temperature threshold, in degrees C. -/
def EXTREME_HIGH_TEMP_THRESHOLD : ℚ := 400

/-- Extreme high pressure threshold, in bar. -/
def EXTREME_HIGH_PRESSURE_THRESHOLD : ℚ := 200

/-- Extreme low temperature threshold, in degrees C. -/
def EXTREME_LOW_TEMP_THRESHOLD : ℚ := -50

/-- Near vacuum pressure threshold, in bar. -/
def VACUUM_PRESSURE_THRESHOLD : ℚ := 1 / 10

/-- First matching warning of the envelope if else chain, snapshot lines
383-411 (none when no branch fires). -/
def envelopeRule (temperature pressure : ℚ) : Option RecItem :=
  if HIGH_TEMP_THRESHOLD < temperature ∧ pressure < LOW_PRESSURE_THRESHOLD then
    some RecItem.envWarn1
  else if temperature < VERY_LOW_TEMP_THRESHOLD ∧ HIGH_PRESSURE_THRESHOLD < pressure then
    some RecItem.envWarn2
  else if EXTREME_HIGH_PRESSURE_THRESHOLD < pressure ∧ EXTREME_HIGH_TEMP_THRESHOLD < temperature then
    some RecItem.envWarn3
  else if pressure < VACUUM_PRESSURE_THRESHOLD ∧ temperature < EXTREME_LOW_TEMP_THRESHOLD then
    some RecItem.envWarn4
  else if EXTREME_HIGH_PRESSURE_THRESHOLD < pressure ∧ temperature < VERY_LOW_TEMP_THRESHOLD then
    some RecItem.envWarn5
  else if pressure < LOW_PRESSURE_THRESHOLD ∧ EXTREME_HIGH_TEMP_THRESHOLD < temperature then
    some RecItem.envWarn6
  else none

/-- Effect of the envelope chain on the shared state: the firing branch
adds its warning to the recommendations set and clears the suitable flag;
when no branch fires the state is untouched (snapshot lines 383-411). -/
def applyEnvelope (temperature pressure : ℚ)
    (recs : List RecItem) (suitable : Bool) : List RecItem × Bool :=
  match envelopeRule temperature pressure with
  | some w => (addRec recs w, false)
  | none => (recs, suitable)

/-- Spec side projection: the family identifiers present in a result
record (section 3 of the spec calls this candidateFamilies). -/
def isFamily : RecItem → Bool
  | RecItem.gateValves => true
  | RecItem.butterflyOnOff => true
  | RecItem.ballValves => true
  | RecItem.knifeGate => true
  | RecItem.globeReg => true
  | RecItem.weirDiaphragm => true
  | RecItem.needleValves => true
  | RecItem.butterflyOor => true
  | RecItem.globeOor => true
  | RecItem.knifeGateV => true
  | _ => false

/-- Ordered list of family items inside a result record. -/
def candidateFamilies (res : EvalResult) : List RecItem :=
  res.recommendations.filter isFamily

/-! Helper lemmas about the set model and the string helpers. -/

/-- One Set.add grows the list by at most one element. -/
theorem addRec_length (l : List RecItem) (x : RecItem) :
    (addRec l x).length ≤ l.length + 1 := by
  unfold addRec
  split
  · exact Nat.le_succ _
  · simp

/-- Adding a non family item does not change the family sublist. -/
theorem filter_addRec {x : RecItem} (h : isFamily x = false) (l : List RecItem) :
    (addRec l x).filter isFamily = l.filter isFamily := by
  unfold addRec
  split
  · rfl
  · simp [List.filter_append, h]

/-- Adding a list of non family items does not change the family sublist. -/
theorem filter_addAll : ∀ (ws l : List RecItem), (∀ x ∈ ws, isFamily x = false) →
    (addAll l ws).filter isFamily = l.filter isFamily := by
  intro ws
  induction ws with
  | nil => intro l _; rfl
  | cons w t ih =>
    intro l h
    have hstep : addAll l (w :: t) = addAll (addRec l w) t := rfl
    rw [hstep, ih _ (fun x hx => h x (List.mem_cons_of_mem _ hx)),
      filter_addRec (h w (List.mem_cons_self w t))]

/-- No warning produced by the body material switch is a family item. -/
theorem bodyWarn_not_family (m : BodyMaterial) (T P : ℚ) (f d : String) :
    ∀ x ∈ (bodyMaterialCheck m T P f d).2, isFamily x = false := by
  cases m <;> simp only [bodyMaterialCheck] <;> (try split_ifs) <;> decide

/-- No warning produced by the seal switch is a family item. -/
theorem sealWarn_not_family (s : SealMaterial) (T P : ℚ) (f : String) :
    ∀ x ∈ (sealCheck s T P f).2, isFamily x = false := by
  cases s <;> simp only [sealCheck] <;> (try split_ifs) <;> decide

/-- Final suitable flag of an evaluation, flattened: function selected and
material gate passed and seal gate passed or skipped. -/
theorem evalRecord_suitable (r : Record) :
    (evalRecord r).suitable =
      (decide (r.mainFunction ≠ MainFunction.unset)
        && (bodyMaterialCheck r.bodyBonnetMaterial r.temperature r.pressure
            r.fluidType r.nominalDiameter).1
        && (decide (r.sealSurfaceMaterial = SealMaterial.unset)
            || (sealCheck r.sealSurfaceMaterial r.temperature r.pressure r.fluidType).1)) := by
  simp only [evalRecord]
  by_cases hf : r.mainFunction = MainFunction.unset <;>
    by_cases hs : r.sealSurfaceMaterial = SealMaterial.unset <;>
      cases hm : (bodyMaterialCheck r.bodyBonnetMaterial r.temperature r.pressure
          r.fluidType r.nominalDiameter).1 <;>
        cases hsc : (sealCheck r.sealSurfaceMaterial r.temperature r.pressure r.fluidType).1 <;>
          simp [hf, hs, hm, hsc]

/-- The family sublist of the result is exactly the family sublist
produced by the function mapping step: no later step adds or removes a
family item. -/
theorem evalRecord_filter (r : Record) :
    (evalRecord r).recommendations.filter isFamily
      = (addAll [] (functionRecs r.mainFunction)).filter isFamily := by
  simp only [evalRecord]
  by_cases hs : r.sealSurfaceMaterial = SealMaterial.unset <;>
    cases hm : (bodyMaterialCheck r.bodyBonnetMaterial r.temperature r.pressure
        r.fluidType r.nominalDiameter).1 <;>
      cases hsc : (sealCheck r.sealSurfaceMaterial r.temperature r.pressure r.fluidType).1 <;>
        simp [hs, hm, hsc, filter_addRec, filter_addAll _ _ (bodyWarn_not_family _ _ _ _ _),
          filter_addAll _ _ (sealWarn_not_family _ _ _ _), isFamily]

/-- A list of characters without digits has an empty digit prefix. -/
theorem takeWhile_digit_nil {cs : List Char} (h : ∀ c ∈ cs, c.isDigit = false) :
    cs.takeWhile Char.isDigit = [] := by
  cases cs with
  | nil => rfl
  | cons a t => simp [List.takeWhile_cons, h a (List.mem_cons_self a t)]

/-- The parseFloat model returns none on digit free input. -/
theorem parseDigitsDots_none {cs : List Char} (h : ∀ c ∈ cs, c.isDigit = false) :
    parseDigitsDots cs = none := by
  have ht : ∀ c ∈ cs.drop 1, c.isDigit = false := fun c hc => h c (List.mem_of_mem_drop hc)
  simp only [parseDigitsDots, takeWhile_digit_nil h, takeWhile_digit_nil ht,
    List.length_nil, List.drop_zero]
  split_ifs <;> simp_all

/-- Characters of a matched initial segment all occur in the list. -/
theorem listStartsWith_mem : ∀ (pat l : List Char), listStartsWith pat l = true →
    ∀ c ∈ pat, c ∈ l := by
  intro pat
  induction pat with
  | nil =>
    intro l _ c hc
    exact absurd hc (List.not_mem_nil c)
  | cons a xs ih =>
    intro l h c hc
    cases l with
    | nil => simp [listStartsWith] at h
    | cons b ys =>
      simp only [listStartsWith, Bool.and_eq_true, beq_iff_eq] at h
      rcases List.mem_cons.mp hc with rfl | hc2
      · rw [h.1]; exact List.mem_cons_self _ _
      · exact List.mem_cons_of_mem _ (ih ys h.2 c hc2)

/-- Characters of a matched substring all occur in the searched list. -/
theorem listContainsSeq_mem : ∀ (pat l : List Char), listContainsSeq pat l = true →
    ∀ c ∈ pat, c ∈ l := by
  intro pat l
  induction l with
  | nil =>
    intro h c hc
    exact listStartsWith_mem pat [] h c hc
  | cons b t ih =>
    intro h c hc
    simp only [listContainsSeq, Bool.or_eq_true] at h
    rcases h with h1 | h2
    · exact listStartsWith_mem _ _ h1 c hc
    · exact List.mem_cons_of_mem _ (ih h2 c hc)

/-- A digit free diameter token cannot contain the dn100 marker. -/
theorem strIncludes_no_digit {d : String} (h : ∀ c ∈ d.toList, c.isDigit = false) :
    strIncludes d "dn100" = false := by
  cases hb : strIncludes d "dn100" with
  | false => rfl
  | true =>
    have h1 : ('1' : Char) ∈ d.toList :=
      listContainsSeq_mem _ _ hb '1' (by decide)
    have h2 := h '1' h1
    simp at h2

/-- The stripped parse of a digit free token is NaN. -/
theorem jsParseFloat_no_digit {d : String} (h : ∀ c ∈ d.toList, c.isDigit = false) :
    jsParseFloat d = none := by
  apply parseDigitsDots_none
  intro c hc
  exact h c (List.mem_of_mem_filter hc)

/-- The brass size override condition is false on digit free tokens. -/
theorem brassSizeHit_no_digit {d : String} (h : ∀ c ∈ d.toList, c.isDigit = false) :
    brassSizeHit d = false := by
  unfold brassSizeHit
  rw [strIncludes_no_digit h, jsParseFloat_no_digit h]
  simp [jsGt]

/-- C1: the claim states the brass and bronze chemical override forces
non viability for every temperature and pressure; in the code the chart
range check runs after the override and flips the flag back to true, so at
50 degrees and 10 bar with acid or ammonia fluid the material is reported
viable while the incompatibility warning is still emitted. -/
theorem c1_brass_bronze_chem_override_lost :
    (bodyMaterialCheck BodyMaterial.brass 50 10 "acid" "").1 = true
    ∧ (bodyMaterialCheck BodyMaterial.brass 50 10 "acid" "").2 = [RecItem.brassChemWarn]
    ∧ (bodyMaterialCheck BodyMaterial.bronze 50 10 "ammonia" "").1 = true
    ∧ (bodyMaterialCheck BodyMaterial.bronze 50 10 "ammonia" "").2 = [RecItem.bronzeChemWarn]
    ∧ strIncludes "acid" "acid" = true
    ∧ strIncludes "ammonia" "ammonia" = true := by
  decide

/-- C2 counterexample: at temperature 200 and pressure 0 the envelope
chain fires its first rule and sets the suitable flag from true to false,
so the envelope does not leave suitable unchanged. -/
theorem c2_envelope_cex :
    (applyEnvelope 200 0 [] true).2 = false
    ∧ (applyEnvelope 200 0 [] true).1 = [RecItem.envWarn1] := by
  decide

/-- C2 amended: the envelope contributes its warning and clears the
suitable flag whenever one of the six branch conditions holds; suitable is
unchanged exactly when no branch fires. -/
theorem c2_envelope_amended :
    ∀ (T P : ℚ) (l : List RecItem) (s : Bool),
      (applyEnvelope T P l s).2
        = (s && !(decide ((HIGH_TEMP_THRESHOLD < T ∧ P < LOW_PRESSURE_THRESHOLD)
            ∨ (T < VERY_LOW_TEMP_THRESHOLD ∧ HIGH_PRESSURE_THRESHOLD < P)
            ∨ (EXTREME_HIGH_PRESSURE_THRESHOLD < P ∧ EXTREME_HIGH_TEMP_THRESHOLD < T)
            ∨ (P < VACUUM_PRESSURE_THRESHOLD ∧ T < EXTREME_LOW_TEMP_THRESHOLD)
            ∨ (EXTREME_HIGH_PRESSURE_THRESHOLD < P ∧ T < VERY_LOW_TEMP_THRESHOLD)
            ∨ (P < LOW_PRESSURE_THRESHOLD ∧ EXTREME_HIGH_TEMP_THRESHOLD < T)))) := by
  intro T P l s
  unfold applyEnvelope envelopeRule
  split_ifs <;> simp [*]

/-- C3: the final suitable flag equals the conjunction of the three gate
outcomes: a primary function selected, the body material gate passed, and
the seal gate passed or skipped; no other input influences it. -/
theorem c3_suitable_conjunction (r : Record) :
    (evalRecord r).suitable =
      (decide (r.mainFunction ≠ MainFunction.unset)
        && (bodyMaterialCheck r.bodyBonnetMaterial r.temperature r.pressure
            r.fluidType r.nominalDiameter).1
        && (decide (r.sealSurfaceMaterial = SealMaterial.unset)
            || (sealCheck r.sealSurfaceMaterial r.temperature r.pressure r.fluidType).1)) :=
  evalRecord_suitable r

/-- C4: stainless steel 310 viability holds exactly on the range minus 200
to 550 degrees with pressure up to 400 bar (so in particular strictly
between 420 and 550 degrees it is viable whenever pressure is at most
400). -/
theorem c4_ss310_range (T P : ℚ) (f d : String) :
    (bodyMaterialCheck BodyMaterial.stainless_steel_310 T P f d).1 = true
      ↔ (-200 ≤ T ∧ T ≤ 550 ∧ P ≤ 400) := by
  simp only [bodyMaterialCheck]
  split_ifs with h <;> simp [h]

/-- C5: the envelope chain emits at most one warning per evaluation, and
at temperature 450 and pressure 250 the third branch (super critical)
fires, producing exactly that warning and not the sixth. -/
theorem c5_envelope_priority :
    (∀ (T P : ℚ) (l : List RecItem) (s : Bool),
      ((applyEnvelope T P l s).1).length ≤ l.length + 1)
    ∧ applyEnvelope 450 250 [] true = ([RecItem.envWarn3], false) := by
  constructor
  · intro T P l s
    unfold applyEnvelope
    cases h : envelopeRule T P with
    | none => exact Nat.le_succ _
    | some w => exact addRec_length l w
  · decide

/-- C6: cast iron with steam fluid above 180 degrees or 10 bar is forced
not viable with the steam limit warning; otherwise viability is exactly
the boundary inclusive chart range, viable at exactly 184 degrees and 16
bar and not viable at 184.01 degrees. -/
theorem c6_cast_iron_rule :
    (∀ (T P : ℚ) (f d : String), strIncludes f "steam" = true → (180 < T ∨ 10 < P) →
        (bodyMaterialCheck BodyMaterial.cast_iron T P f d).1 = false
        ∧ (bodyMaterialCheck BodyMaterial.cast_iron T P f d).2 = [RecItem.castIronSteamWarn])
    ∧ (∀ (T P : ℚ) (f d : String), ¬(strIncludes f "steam" = true ∧ (180 < T ∨ 10 < P)) →
        ((bodyMaterialCheck BodyMaterial.cast_iron T P f d).1 = true ↔ (T ≤ 184 ∧ P ≤ 16)))
    ∧ (bodyMaterialCheck BodyMaterial.cast_iron 184 16 "water" "").1 = true
    ∧ (bodyMaterialCheck BodyMaterial.cast_iron (18401 / 100) 16 "water" "").1 = false := by
  refine ⟨?_, ?_, by decide, ?_⟩
  · intro T P f d h1 h2
    simp [bodyMaterialCheck, h1, h2]
  · intro T P f d hn
    simp only [bodyMaterialCheck, if_neg hn]
    split_ifs with h <;> simp [h]
  · have hc1 : ¬(strIncludes "water" "steam" = true
        ∧ ((180 : ℚ) < 18401 / 100 ∨ (10 : ℚ) < 16)) := by
      intro hcon
      have h1 := hcon.1
      revert h1
      decide
    have hc2 : ¬((18401 / 100 : ℚ) ≤ 184) := by norm_num
    simp [bodyMaterialCheck, hc1, hc2]

/-- C7: whenever a primary function is selected the family sublist of the
result is exactly the fixed family list of that function and is non
empty, regardless of every other input (in particular when suitable is
false). -/
theorem c7_families (r : Record) (h : r.mainFunction ≠ MainFunction.unset) :
    candidateFamilies (evalRecord r) = functionRecs r.mainFunction
    ∧ functionRecs r.mainFunction ≠ [] := by
  have hfil := evalRecord_filter r
  constructor
  · unfold candidateFamilies
    rw [hfil]
    cases hm : r.mainFunction
    case unset => exact absurd hm h
    all_goals decide
  · cases hm : r.mainFunction
    case unset => exact absurd hm h
    all_goals decide

/-- C7 witness: a concrete record whose material gate fails still carries
the full regulation family list while suitable is false. -/
theorem c7_families_witness :
    candidateFamilies (evalRecord ⟨MainFunction.regulation, BodyMaterial.plastic, 100, 20,
        SealMaterial.unset, "", ""⟩) = functionRecs MainFunction.regulation
    ∧ functionRecs MainFunction.regulation ≠ []
    ∧ (evalRecord ⟨MainFunction.regulation, BodyMaterial.plastic, 100, 20,
        SealMaterial.unset, "", ""⟩).suitable = false := by
  exact ⟨(c7_families ⟨MainFunction.regulation, BodyMaterial.plastic, 100, 20,
      SealMaterial.unset, "", ""⟩ (by decide)).1,
    (c7_families ⟨MainFunction.regulation, BodyMaterial.plastic, 100, 20,
      SealMaterial.unset, "", ""⟩ (by decide)).2, by decide⟩

/-- C8 counterexample: with no body material selected the default case
reports the material viable with no prompt, so a record with unset
material and a selected function is evaluated suitable, against the
claim that suitable is false for every such record. -/
theorem c8_unset_material_cex :
    (evalRecord ⟨MainFunction.on_off, BodyMaterial.unset, 500, 300,
        SealMaterial.unset, "", "corrosive"⟩).suitable = true
    ∧ bodyMaterialCheck BodyMaterial.unset 500 300 "corrosive" "" = (true, []) := by
  decide

/-- C8 amended: the default case of the material switch returns viable
with no warnings, so for records with unset body material the suitable
flag is decided by the function and seal gates alone. -/
theorem c8_unset_material_amended :
    (∀ (T P : ℚ) (f d : String), bodyMaterialCheck BodyMaterial.unset T P f d = (true, []))
    ∧ (∀ r : Record, r.bodyBonnetMaterial = BodyMaterial.unset →
        (evalRecord r).suitable
          = (decide (r.mainFunction ≠ MainFunction.unset)
            && (decide (r.sealSurfaceMaterial = SealMaterial.unset)
                || (sealCheck r.sealSurfaceMaterial r.temperature r.pressure
                    r.fluidType).1))) := by
  refine ⟨fun T P f d => rfl, ?_⟩
  intro r hr
  rw [evalRecord_suitable r, hr]
  simp [bodyMaterialCheck]

/-- C8 amended witness: the amended rule evaluated on a concrete record
with unset material. -/
theorem c8_unset_material_amended_witness :
    bodyMaterialCheck BodyMaterial.unset 0 0 "" "" = (true, [])
    ∧ (evalRecord ⟨MainFunction.on_off, BodyMaterial.unset, 0, 0,
        SealMaterial.unset, "", ""⟩).suitable
      = (decide ((MainFunction.on_off : MainFunction) ≠ MainFunction.unset)
        && (decide ((SealMaterial.unset : SealMaterial) = SealMaterial.unset)
            || (sealCheck SealMaterial.unset 0 0 "").1)) := by
  exact ⟨c8_unset_material_amended.1 0 0 "" "",
    c8_unset_material_amended.2 ⟨MainFunction.on_off, BodyMaterial.unset, 0, 0,
      SealMaterial.unset, "", ""⟩ rfl⟩

/-- C9 counterexample: a fluid descriptor equal to the underscore keyword
sea_water does contain that keyword, yet the duplex branch emits no
warning, because the code searches for the space separated text sea
water. -/
theorem c9_sea_water_keyword_cex :
    strIncludes "sea_water" "sea_water" = true
    ∧ bodyMaterialCheck BodyMaterial.duplex_super_duplex 20 5 "sea_water" "" = (true, []) := by
  decide

/-- C9 amended: duplex super duplex is viable for every input, and the
positive sea water note is emitted exactly when the fluid descriptor
contains the space separated text sea water. -/
theorem c9_duplex_amended (T P : ℚ) (f d : String) :
    (bodyMaterialCheck BodyMaterial.duplex_super_duplex T P f d).1 = true
    ∧ (RecItem.duplexSeaWaterNote ∈ (bodyMaterialCheck BodyMaterial.duplex_super_duplex T P f d).2
        ↔ strIncludes f "sea water" = true) := by
  simp only [bodyMaterialCheck]
  split_ifs with h <;> simp [h]

/-- C10: the brass size override is total and digit driven: a digit free
token parses to NaN, NaN compares false against 100, the override fires
only for tokens containing dn100 or parsing above 100, and a digit free
or empty token leaves the whole brass branch exactly as an empty token
does. -/
theorem c10_brass_size_total :
    (∀ d : String, (∀ c ∈ d.toList, c.isDigit = false) → jsParseFloat d = none)
    ∧ (∀ d : String, (∀ c ∈ d.toList, c.isDigit = false) → brassSizeHit d = false)
    ∧ brassSizeHit "" = false
    ∧ (∀ d : String, brassSizeHit d = true →
        strIncludes d "dn100" = true ∨ (d ≠ "" ∧ jsGt (jsParseFloat d) 100 = true))
    ∧ (∀ (T P : ℚ) (f d : String), (∀ c ∈ d.toList, c.isDigit = false) →
        bodyMaterialCheck BodyMaterial.brass T P f d
          = bodyMaterialCheck BodyMaterial.brass T P f "") := by
  refine ⟨fun d h => jsParseFloat_no_digit h, fun d h => brassSizeHit_no_digit h,
    by decide, ?_, ?_⟩
  · intro d h
    unfold brassSizeHit at h
    simp only [Bool.or_eq_true, Bool.and_eq_true, decide_eq_true_eq] at h
    exact h
  · intro T P f d h
    have hd : brassSizeHit d = false := brassSizeHit_no_digit h
    have he : brassSizeHit "" = false := by decide
    simp [bodyMaterialCheck, hd, he]

/-- C10 witness: the totality facts evaluated on the concrete tokens abc,
the empty token, and dn150. -/
theorem c10_brass_size_total_witness :
    jsParseFloat "abc" = none
    ∧ brassSizeHit "abc" = false
    ∧ bodyMaterialCheck BodyMaterial.brass 20 5 "water" "abc"
        = bodyMaterialCheck BodyMaterial.brass 20 5 "water" ""
    ∧ (strIncludes "dn150" "dn100" = true
        ∨ ("dn150" ≠ "" ∧ jsGt (jsParseFloat "dn150") 100 = true)) := by
  have h : ∀ c ∈ "abc".toList, c.isDigit = false := by decide
  exact ⟨c10_brass_size_total.1 "abc" h, c10_brass_size_total.2.1 "abc" h,
    c10_brass_size_total.2.2.2.2 20 5 "water" "abc" h,
    c10_brass_size_total.2.2.2.1 "dn150" (by decide)⟩

/-- C6 witness: the steam override and the range rule evaluated at
concrete inputs. -/
theorem c6_cast_iron_rule_witness :
    ((bodyMaterialCheck BodyMaterial.cast_iron 200 20 "steam" "").1 = false
      ∧ (bodyMaterialCheck BodyMaterial.cast_iron 200 20 "steam" "").2
          = [RecItem.castIronSteamWarn])
    ∧ ((bodyMaterialCheck BodyMaterial.cast_iron 100 10 "water" "").1 = true
        ↔ ((100 : ℚ) ≤ 184 ∧ (10 : ℚ) ≤ 16)) := by
  exact ⟨c6_cast_iron_rule.1 200 20 "steam" "" (by decide) (by decide),
    c6_cast_iron_rule.2.1 100 10 "water" "" (by decide)⟩
